import Mathlib

/-!
Verification of `csv2parquet`'s `convert` driver
(`crates/csv2parquet/src/lib.rs`).

The driver is a straight-line orchestration over external services
(file system, arrow CSV reader, parquet writer).  We embed it as a pure
function from an `Opts` configuration and an `Env` — the outcomes the
external calls would return — to a `ConvertOutcome`: the `Result` value
of the Rust function together with a `Trace` of the observable effects
(stream output, which files were created, the configurations handed to
the reader and the writer, the batches written, whether the writer was
closed).
-/

namespace Csv2Parquet

/-- Arrow logical column types (the fragment relevant to CSV inference).
`null` is the state of a column with no observed values, before
finalization. -/
inductive DataType where
  | null
  | boolean
  | int64
  | float64
  | utf8
deriving DecidableEq

/-- One column of an Arrow schema: name, logical type, nullability. -/
structure Field where
  name : String
  dataType : DataType
  nullable : Bool
deriving DecidableEq

/-- An Arrow schema: an ordered list of fields. -/
abbrev Schema := List Field

/-- `ParquetCompression` from the source (lib.rs lines 13-23). -/
inductive ParquetCompression where
  | UNCOMPRESSED
  | SNAPPY
  | GZIP
  | LZO
  | BROTLI
  | LZ4
  | ZSTD
  | LZ4_RAW
deriving DecidableEq

/-- `ParquetEncoding` from the source (lib.rs lines 25-35). -/
inductive ParquetEncoding where
  | PLAIN
  | PLAIN_DICTIONARY
  | RLE
  | RLE_DICTIONARY
  | DELTA_BINARY_PACKED
  | DELTA_LENGTH_BYTE_ARRAY
  | DELTA_BYTE_ARRAY
  | BYTE_STREAM_SPLIT
deriving DecidableEq

/-- `ParquetEnabledStatistics` from the source (lib.rs lines 37-42). -/
inductive ParquetEnabledStatistics where
  | None
  | Chunk
  | Page
deriving DecidableEq

/-- The parquet library's `Compression` enum (levelled codecs carry their
level; `GzipLevel::default()` is 6, `BrotliLevel::default()` is 1,
`ZstdLevel::default()` is 1). -/
inductive Compression where
  | UNCOMPRESSED
  | SNAPPY
  | GZIP (level : Nat)
  | LZO
  | BROTLI (level : Nat)
  | LZ4
  | ZSTD (level : Nat)
  | LZ4_RAW
deriving DecidableEq

def GzipLevel.default : Nat := 6
def BrotliLevel.default : Nat := 1
def ZstdLevel.default : Nat := 1

/-- The parquet library's `Encoding` enum (the variants the source maps to). -/
inductive Encoding where
  | PLAIN
  | PLAIN_DICTIONARY
  | RLE
  | RLE_DICTIONARY
  | DELTA_BINARY_PACKED
  | DELTA_LENGTH_BYTE_ARRAY
  | DELTA_BYTE_ARRAY
  | BYTE_STREAM_SPLIT
deriving DecidableEq

/-- The parquet library's `EnabledStatistics` enum. -/
inductive EnabledStatistics where
  | None
  | Chunk
  | Page
deriving DecidableEq

/-- `Opts` from the source (lib.rs lines 44-98).  Paths are modelled as
strings. -/
structure Opts where
  input : String
  output : String
  schema_file : Option String
  max_read_records : Option Nat
  header : Option Bool
  delimiter : Char
  compression : Option ParquetCompression
  encoding : Option ParquetEncoding
  data_page_size_limit : Option Nat
  dictionary_page_size_limit : Option Nat
  write_batch_size : Option Nat
  max_row_group_size : Option Nat
  created_by : Option String
  dictionary : Bool
  statistics : Option ParquetEnabledStatistics
  max_statistics_size : Option Nat
  print_schema : Bool
  dry : Bool

/-- `Opts::new` from the source (lib.rs lines 100-123): all optional fields
absent, delimiter comma, flags false. -/
def Opts.new (input output : String) : Opts where
  input := input
  output := output
  schema_file := none
  max_read_records := none
  header := none
  delimiter := ','
  compression := none
  encoding := none
  data_page_size_limit := none
  dictionary_page_size_limit := none
  write_batch_size := none
  max_row_group_size := none
  created_by := none
  dictionary := false
  statistics := none
  max_statistics_size := none
  print_schema := false
  dry := false

/-- Rust `char as u8`: truncation to the low 8 bits of the scalar value. -/
def charAsU8 (c : Char) : Nat := c.toNat % 256

/-- The parquet library's `WriterProperties` builder, restricted to the
fields the source touches.  Field values are the library's documented
defaults (`DEFAULT_DICTIONARY_ENABLED = true`,
`DEFAULT_STATISTICS_ENABLED = Page`, `DEFAULT_COMPRESSION = UNCOMPRESSED`,
no default-column encoding override, `DEFAULT_WRITE_BATCH_SIZE = 1024`,
`DEFAULT_PAGE_SIZE = 1024 * 1024` for both page size limits,
`DEFAULT_MAX_ROW_GROUP_SIZE = 1024 * 1024`,
`DEFAULT_MAX_STATISTICS_SIZE = 4096`). -/
structure WriterPropertiesBuilder where
  dictionaryEnabled : Bool
  statisticsEnabled : EnabledStatistics
  compression : Compression
  encoding : Option Encoding
  writeBatchSize : Nat
  dataPageSizeLimit : Nat
  dictionaryPageSizeLimit : Nat
  maxRowGroupSize : Nat
  createdBy : String
  maxStatisticsSize : Nat
deriving DecidableEq

/-- `WriterProperties::builder()`: the library defaults. -/
def WriterPropertiesBuilder.default : WriterPropertiesBuilder where
  dictionaryEnabled := true
  statisticsEnabled := .Page
  compression := .UNCOMPRESSED
  encoding := none
  writeBatchSize := 1024
  dataPageSizeLimit := 1024 * 1024
  dictionaryPageSizeLimit := 1024 * 1024
  maxRowGroupSize := 1024 * 1024
  createdBy := "parquet-rs version"
  maxStatisticsSize := 4096

def WriterPropertiesBuilder.set_dictionary_enabled
    (b : WriterPropertiesBuilder) (v : Bool) : WriterPropertiesBuilder :=
  { b with dictionaryEnabled := v }

def WriterPropertiesBuilder.set_statistics_enabled
    (b : WriterPropertiesBuilder) (v : EnabledStatistics) : WriterPropertiesBuilder :=
  { b with statisticsEnabled := v }

def WriterPropertiesBuilder.set_compression
    (b : WriterPropertiesBuilder) (v : Compression) : WriterPropertiesBuilder :=
  { b with compression := v }

def WriterPropertiesBuilder.set_encoding
    (b : WriterPropertiesBuilder) (v : Encoding) : WriterPropertiesBuilder :=
  { b with encoding := some v }

def WriterPropertiesBuilder.set_write_batch_size
    (b : WriterPropertiesBuilder) (v : Nat) : WriterPropertiesBuilder :=
  { b with writeBatchSize := v }

def WriterPropertiesBuilder.set_data_page_size_limit
    (b : WriterPropertiesBuilder) (v : Nat) : WriterPropertiesBuilder :=
  { b with dataPageSizeLimit := v }

def WriterPropertiesBuilder.set_dictionary_page_size_limit
    (b : WriterPropertiesBuilder) (v : Nat) : WriterPropertiesBuilder :=
  { b with dictionaryPageSizeLimit := v }

def WriterPropertiesBuilder.set_max_row_group_size
    (b : WriterPropertiesBuilder) (v : Nat) : WriterPropertiesBuilder :=
  { b with maxRowGroupSize := v }

def WriterPropertiesBuilder.set_created_by
    (b : WriterPropertiesBuilder) (v : String) : WriterPropertiesBuilder :=
  { b with createdBy := v }

def WriterPropertiesBuilder.set_max_statistics_size
    (b : WriterPropertiesBuilder) (v : Nat) : WriterPropertiesBuilder :=
  { b with maxStatisticsSize := v }

/-- The `match` on `opts.statistics` (lib.rs lines 189-193). -/
def enabledStatisticsOf : ParquetEnabledStatistics → EnabledStatistics
  | .Chunk => .Chunk
  | .Page => .Page
  | .None => .None

/-- The `match` on `opts.compression` (lib.rs lines 199-208). -/
def compressionOf : ParquetCompression → Compression
  | .UNCOMPRESSED => .UNCOMPRESSED
  | .SNAPPY => .SNAPPY
  | .GZIP => .GZIP GzipLevel.default
  | .LZO => .LZO
  | .BROTLI => .BROTLI BrotliLevel.default
  | .LZ4 => .LZ4
  | .ZSTD => .ZSTD ZstdLevel.default
  | .LZ4_RAW => .LZ4_RAW

/-- The `match` on `opts.encoding` (lib.rs lines 214-223). -/
def encodingOf : ParquetEncoding → Encoding
  | .PLAIN => .PLAIN
  | .PLAIN_DICTIONARY => .PLAIN_DICTIONARY
  | .RLE => .RLE
  | .RLE_DICTIONARY => .RLE_DICTIONARY
  | .DELTA_BINARY_PACKED => .DELTA_BINARY_PACKED
  | .DELTA_LENGTH_BYTE_ARRAY => .DELTA_LENGTH_BYTE_ARRAY
  | .DELTA_BYTE_ARRAY => .DELTA_BYTE_ARRAY
  | .BYTE_STREAM_SPLIT => .BYTE_STREAM_SPLIT

/-- The writer-properties assembly of `convert` (lib.rs lines 186-254):
`set_dictionary_enabled` unconditionally, then each optional field, if
present, applied via its setter — including the source's duplicated
`dictionary_page_size_limit` assignment (lines 236-242). -/
def makeWriterProps (opts : Opts) : WriterPropertiesBuilder :=
  let props := WriterPropertiesBuilder.default.set_dictionary_enabled opts.dictionary
  let props := match opts.statistics with
    | some s => props.set_statistics_enabled (enabledStatisticsOf s)
    | none => props
  let props := match opts.compression with
    | some c => props.set_compression (compressionOf c)
    | none => props
  let props := match opts.encoding with
    | some e => props.set_encoding (encodingOf e)
    | none => props
  let props := match opts.write_batch_size with
    | some size => props.set_write_batch_size size
    | none => props
  let props := match opts.data_page_size_limit with
    | some size => props.set_data_page_size_limit size
    | none => props
  let props := match opts.dictionary_page_size_limit with
    | some size => props.set_dictionary_page_size_limit size
    | none => props
  let props := match opts.dictionary_page_size_limit with
    | some size => props.set_dictionary_page_size_limit size
    | none => props
  let props := match opts.max_row_group_size with
    | some size => props.set_max_row_group_size size
    | none => props
  let props := match opts.created_by with
    | some created_by => props.set_created_by created_by
    | none => props
  let props := match opts.max_statistics_size with
    | some size => props.set_max_statistics_size size
    | none => props
  props

/-- An io error, reduced to its display message. -/
structure IoError where
  msg : String
deriving DecidableEq

/-- The parquet library's `ParquetError`, reduced to the variants `convert`
can produce: `general` carries a descriptive message, `arrowError` is the
conversion of an arrow error (its display string), `external` wraps a boxed
foreign error (here: an io error's message). -/
inductive ParquetError where
  | general (msg : String)
  | arrowError (msg : String)
  | external (msg : String)
deriving DecidableEq

/-- The parquet library's `impl From<io::Error> for ParquetError`:
`ParquetError::External(Box::new(e))`. -/
def ParquetError.fromIo (e : IoError) : ParquetError := .external e.msg

/-- The parquet library's `impl From<ArrowError> for ParquetError`:
`ParquetError::ArrowError(format!("{e}"))`.  Arrow errors are modelled by
their display string. -/
def ParquetError.fromArrow (msg : String) : ParquetError := .arrowError msg

/-- The arrow CSV `Format` configuration: `Format::default()` has no header
and a comma delimiter; `with_delimiter` and `with_header` override. -/
structure FormatCfg where
  delimiter : Nat
  header : Bool
deriving DecidableEq

def FormatCfg.default : FormatCfg where
  delimiter := 44
  header := false

def FormatCfg.with_delimiter (f : FormatCfg) (d : Nat) : FormatCfg :=
  { f with delimiter := d }

def FormatCfg.with_header (f : FormatCfg) (h : Bool) : FormatCfg :=
  { f with header := h }

/-- The settings the `ReaderBuilder` is given (lib.rs lines 178-180): the
resolved schema, the header flag, the delimiter byte. -/
structure ReaderCfg where
  schema : Schema
  header : Bool
  delimiter : Nat
deriving DecidableEq

/-- A record batch, opaque to the driver; identified by a tag. -/
structure RecordBatch where
  tag : Nat
deriving DecidableEq

/-- Outcomes of the external calls `convert` makes, one field per call
site.  Read errors of the batch reader are arrow errors (display
strings). -/
structure Env where
  /-- `File::open(&opts.input)` (line 126). -/
  inputOpen : Except IoError Unit
  /-- `File::open(&schema_def_file_path)` (line 139). -/
  schemaFileOpen : Except IoError Unit
  /-- `serde_json::from_reader(schema_file)` (line 146); errors are the
  serde display string. -/
  schemaParse : Except String Schema
  /-- `format.infer_schema(&mut input, opts.max_read_records)` (line 159),
  as a function of the format and record limit passed. -/
  infer : FormatCfg → Option Nat → Except String Schema
  /-- `builder.build(input)` (line 182); errors are arrow errors. -/
  readerBuild : Except String Unit
  /-- `File::create(opts.output)` (line 184). -/
  outputCreate : Except IoError Unit
  /-- `ArrowWriter::try_new(...)` (line 256). -/
  writerNew : Except ParquetError Unit
  /-- The iteration of the batch reader (line 258): each step yields a
  batch or an arrow error. -/
  batches : List (Except String RecordBatch)
  /-- `writer.write(&batch)` (line 260). -/
  writeBatch : RecordBatch → Except ParquetError Unit
  /-- `writer.close()` (line 265). -/
  closeWriter : Except ParquetError Unit

/-- Observable effects of a `convert` run. -/
structure Trace where
  /-- Lines written to the error stream. -/
  stderrLines : List String
  /-- Lines written to standard output. -/
  stdoutLines : List String
  /-- The format and record limit schema inference was invoked with, if it
  was invoked. -/
  inferCalled : Option (FormatCfg × Option Nat)
  /-- The settings the record-batch reader was built with, if the builder
  was constructed. -/
  readerCfg : Option ReaderCfg
  /-- Whether `File::create(opts.output)` was reached and succeeded. -/
  outputCreated : Bool
  /-- The schema and properties the columnar writer was constructed with,
  if it was constructed. -/
  writerCfg : Option (Schema × WriterPropertiesBuilder)
  /-- The batches successfully written, in order. -/
  written : List RecordBatch
  /-- Whether `writer.close()` was invoked. -/
  closed : Bool
deriving DecidableEq

def Trace.empty : Trace where
  stderrLines := []
  stdoutLines := []
  inferCalled := none
  readerCfg := none
  outputCreated := false
  writerCfg := none
  written := []
  closed := false

deriving instance DecidableEq for Except

/-- Result and effect trace of one `convert` run. -/
structure ConvertOutcome where
  result : Except ParquetError Unit
  trace : Trace
deriving DecidableEq

/-- Modelled from the spec: `serde_json::to_string_pretty` applied to the
schema (external serde/arrow serialization, not part of this repository's
sources) — a concrete JSON rendering of the field list. -/
def fieldJson (f : Field) : String :=
  "\x7b \"name\": \"" ++ f.name ++ "\", \"data_type\": \"" ++
    (match f.dataType with
      | .null => "Null"
      | .boolean => "Boolean"
      | .int64 => "Int64"
      | .float64 => "Float64"
      | .utf8 => "Utf8") ++
    "\", \"nullable\": " ++ (if f.nullable then "true" else "false") ++ " \x7d"

/-- Modelled from the spec: the pretty-printed schema JSON
(`serde_json::to_string_pretty(&schema).unwrap()`, line 169). -/
def schemaJson (s : Schema) : String :=
  "\x7b \"fields\": [" ++ String.intercalate ", " (s.map fieldJson) ++ "] \x7d"

/-- Rust `Debug` formatting of a `PathBuf` (quotes around the path), as used
by the `{schema_def_file_path:?}` interpolation on line 142. -/
def pathDebug (p : String) : String := "\"" ++ p ++ "\""

/-- Schema resolution (lib.rs lines 137-166).  Returns the resolved schema
or the wrapped error, together with the inference invocation (format and
record limit) when the inference arm ran. -/
def resolveSchema (opts : Opts) (env : Env) :
    Except ParquetError Schema × Option (FormatCfg × Option Nat) :=
  match opts.schema_file with
  | some schema_def_file_path =>
    (match env.schemaFileOpen with
      | .error error =>
        .error (.general ("Error opening schema file: " ++ pathDebug schema_def_file_path ++
          ", message: " ++ error.msg))
      | .ok _ =>
        match env.schemaParse with
        | .ok schema => .ok schema
        | .error err => .error (.general ("Error reading schema json: " ++ err)),
      none)
  | none =>
    let format := (FormatCfg.default.with_delimiter (charAsU8 opts.delimiter)).with_header
      (opts.header.getD true)
    (match env.infer format opts.max_read_records with
      | .ok schema => .ok schema
      | .error error => .error (.general ("Error inferring schema: " ++ error)),
      some (format, opts.max_read_records))

/-- The write loop and close (lib.rs lines 258-268): drain the reader,
writing each batch; on a read error return it converted, on a write error
return it as is; when the reader is exhausted, close the writer and return
its outcome. -/
def writeLoop (env : Env) : List (Except String RecordBatch) → Trace → ConvertOutcome
  | [], tr =>
    (match env.closeWriter with
      | .ok _ => ⟨.ok (), { tr with closed := true }⟩
      | .error error => ⟨.error error, { tr with closed := true }⟩)
  | .ok batch :: rest, tr =>
    (match env.writeBatch batch with
      | .ok _ => writeLoop env rest { tr with written := tr.written ++ [batch] }
      | .error error => ⟨.error error, tr⟩)
  | .error error :: _, tr => ⟨.error (ParquetError.fromArrow error), tr⟩

/-- `convert` (lib.rs lines 125-269), as a pure function of the
configuration and the environment of external-call outcomes. -/
def convert (opts : Opts) (env : Env) : ConvertOutcome :=
  match env.inputOpen with
  | .error e => ⟨.error (ParquetError.fromIo e), Trace.empty⟩
  | .ok _ =>
    let resolved := resolveSchema opts env
    let tr0 := { Trace.empty with inferCalled := resolved.2 }
    match resolved.1 with
    | .error e => ⟨.error e, tr0⟩
    | .ok schema =>
      let tr1 := if opts.print_schema || opts.dry then
          { tr0 with
            stderrLines := tr0.stderrLines ++ ["Schema:"]
            stdoutLines := tr0.stdoutLines ++ [schemaJson schema] }
        else tr0
      if opts.dry then ⟨.ok (), tr1⟩
      else
        let readerCfg : ReaderCfg :=
          ⟨schema, opts.header.getD true, charAsU8 opts.delimiter⟩
        let tr2 := { tr1 with readerCfg := some readerCfg }
        match env.readerBuild with
        | .error e => ⟨.error (ParquetError.fromArrow e), tr2⟩
        | .ok _ =>
          match env.outputCreate with
          | .error e => ⟨.error (ParquetError.fromIo e), tr2⟩
          | .ok _ =>
            let tr3 := { tr2 with outputCreated := true }
            let props := makeWriterProps opts
            match env.writerNew with
            | .error e => ⟨.error e, tr3⟩
            | .ok _ =>
              let tr4 := { tr3 with writerCfg := some (schema, props) }
              writeLoop env env.batches tr4

/-- Modelled from the spec: per-value type detection of arrow's CSV schema
inference (`Format::infer_schema` lives in the external arrow library, not
in this repository's sources).  A value is a boolean literal, an integer
literal, a float literal, or falls back to a string. -/
def inferValueType (v : String) : DataType :=
  if v = "true" || v = "false" then .boolean
  else if
    (let s := if v.startsWith "-" then v.drop 1 else v
     s ≠ "" && s.all (·.isDigit)) then .int64
  else if
    (let s := if v.startsWith "-" then v.drop 1 else v
     match s.splitOn "." with
     | [a, b] => a ≠ "" && b ≠ "" && a.all (·.isDigit) && b.all (·.isDigit)
     | _ => false) then .float64
  else .utf8

/-- Modelled from the spec: merging the types observed in one column during
inference; a column that mixes incompatible types degrades to string,
integers and floats merge to float, `null` is the no-observation state. -/
def mergeTypes : DataType → DataType → DataType
  | .null, t => t
  | t, .null => t
  | .int64, .float64 => .float64
  | .float64, .int64 => .float64
  | t, u => if t = u then t else .utf8

/-- Modelled from the spec: the inferred type of one column, folded over the
sampled values; with no observations the suggested type is string. -/
def inferColumnType (vals : List String) : DataType :=
  match vals.foldl (fun acc v => mergeTypes acc (inferValueType v)) .null with
  | .null => .utf8
  | t => t

/-- Modelled from the spec: column names — the header row when the format
has headers, generated `column_i` names otherwise. -/
def columnNames (rows : List (List String)) (header : Bool) : List String :=
  if header then rows.headD []
  else (List.range (rows.headD []).length).map (fun i => "column_" ++ toString (i + 1))

/-- Modelled from the spec: the data rows available for sampling (the header
row, when present, is not data). -/
def dataRows (rows : List (List String)) (header : Bool) : List (List String) :=
  if header then rows.tail else rows

/-- Modelled from the spec: arrow's `Format::infer_schema` over the
tokenized records of the input — samples up to `maxReadRecords` data rows
(all rows when absent) and infers each column's type from the sampled
values; inferred columns are nullable. -/
def inferSchemaFromRows (rows : List (List String)) (header : Bool)
    (maxReadRecords : Option Nat) : Schema :=
  let names := columnNames rows header
  let sampled := match maxReadRecords with
    | some n => (dataRows rows header).take n
    | none => dataRows rows header
  (List.range names.length).map (fun i =>
    ⟨names.getD i "", inferColumnType (sampled.filterMap (fun r => r[i]?)), true⟩)

/-- The writer-properties assembly as the spec words it — one assignment per
optional field, without the source's duplicated `dictionary_page_size_limit`
assignment.  Compared against `makeWriterProps` to show the duplication has
no observable effect. -/
def makeWriterPropsSingle (opts : Opts) : WriterPropertiesBuilder :=
  let props := WriterPropertiesBuilder.default.set_dictionary_enabled opts.dictionary
  let props := match opts.statistics with
    | some s => props.set_statistics_enabled (enabledStatisticsOf s)
    | none => props
  let props := match opts.compression with
    | some c => props.set_compression (compressionOf c)
    | none => props
  let props := match opts.encoding with
    | some e => props.set_encoding (encodingOf e)
    | none => props
  let props := match opts.write_batch_size with
    | some size => props.set_write_batch_size size
    | none => props
  let props := match opts.data_page_size_limit with
    | some size => props.set_data_page_size_limit size
    | none => props
  let props := match opts.dictionary_page_size_limit with
    | some size => props.set_dictionary_page_size_limit size
    | none => props
  let props := match opts.max_row_group_size with
    | some size => props.set_max_row_group_size size
    | none => props
  let props := match opts.created_by with
    | some created_by => props.set_created_by created_by
    | none => props
  let props := match opts.max_statistics_size with
    | some size => props.set_max_statistics_size size
    | none => props
  props

/-- Whether a run's result is an error of the `general` variant. -/
def resultIsGeneral (o : ConvertOutcome) : Bool :=
  match o.result with
  | .error (.general _) => true
  | _ => false

/-! Concrete fixtures used by witnesses and counterexamples. -/

def exSchema : Schema := [⟨"a", DataType.utf8, true⟩]

def exSchemaInt : Schema := [⟨"a", DataType.int64, true⟩]

/-- An environment in which every external call succeeds; inference yields
`exSchema`, the batch reader is empty. -/
def exEnvOk : Env where
  inputOpen := .ok ()
  schemaFileOpen := .ok ()
  schemaParse := .error "no schema file configured"
  infer := fun _ _ => .ok exSchema
  readerBuild := .ok ()
  outputCreate := .ok ()
  writerNew := .ok ()
  batches := []
  writeBatch := fun _ => .ok ()
  closeWriter := .ok ()

def exOpts : Opts := Opts.new "in.csv" "out.parquet"

def exOptsDry : Opts := { exOpts with dry := true }

def exOptsPrint : Opts := { exOpts with print_schema := true }

/-- A configuration with an explicit schema file; inference, were it ever
consulted, would produce a different (integer) schema. -/
def exOptsSchemaFile : Opts := { exOpts with schema_file := some "schema.json" }

def exEnvSchemaFile : Env :=
  { exEnvOk with schemaParse := .ok exSchema, infer := fun _ _ => .ok exSchemaInt }

def exEnvInputErr : Env := { exEnvOk with inputOpen := .error ⟨"no such file"⟩ }

def exEnvSchemaOpenErr : Env := { exEnvOk with schemaFileOpen := .error ⟨"denied"⟩ }

def exEnvParseErr : Env := { exEnvOk with schemaParse := .error "bad json" }

def exEnvInferErr : Env := { exEnvOk with infer := fun _ _ => .error "bad csv" }

def exEnvBatchErr : Env := { exEnvOk with batches := [.ok ⟨0⟩, .error "bad row"] }

def exEnvBatchErrLone : Env := { exEnvOk with batches := [.error "boom"] }

def exEnvWriteErr : Env :=
  { exEnvOk with batches := [.ok ⟨1⟩], writeBatch := fun _ => .error (.external "disk full") }

def exEnvCloseErr : Env :=
  { exEnvOk with batches := [.ok ⟨2⟩], closeWriter := .error (.external "disk full") }

/-! ### Plumbing lemmas -/

/-- The write loop only touches the `written` and `closed` fields of the
trace. -/
theorem writeLoop_trace_fields (env : Env) (l : List (Except String RecordBatch))
    (tr : Trace) :
    (writeLoop env l tr).trace.stderrLines = tr.stderrLines ∧
    (writeLoop env l tr).trace.stdoutLines = tr.stdoutLines ∧
    (writeLoop env l tr).trace.inferCalled = tr.inferCalled ∧
    (writeLoop env l tr).trace.readerCfg = tr.readerCfg ∧
    (writeLoop env l tr).trace.outputCreated = tr.outputCreated ∧
    (writeLoop env l tr).trace.writerCfg = tr.writerCfg := by
  induction l generalizing tr with
  | nil => cases h : env.closeWriter <;> simp [writeLoop, h]
  | cons hd tl ih =>
    cases hd with
    | ok b => cases h : env.writeBatch b <;> simp [writeLoop, h, ih]
    | error e => simp [writeLoop]

/-- Draining a prefix of successfully read and written batches appends them
to the `written` trace. -/
theorem writeLoop_append_ok (env : Env) (pre : List RecordBatch)
    (rest : List (Except String RecordBatch)) (tr : Trace)
    (hw : ∀ b ∈ pre, env.writeBatch b = .ok ()) :
    writeLoop env (pre.map Except.ok ++ rest) tr =
      writeLoop env rest { tr with written := tr.written ++ pre } := by
  induction pre generalizing tr with
  | nil => simp
  | cons b bs ih =>
    have hb : env.writeBatch b = .ok () := hw b (by simp)
    have hbs : ∀ x ∈ bs, env.writeBatch x = .ok () := fun x hx => hw x (by simp [hx])
    simp only [List.map_cons, List.cons_append, writeLoop, hb]
    simp only [List.append_eq]
    rw [ih _ hbs]
    congr 1
    simp

/-- A read error at the head of the remaining stream aborts the loop with
the converted error, leaving the trace as it stands (in particular the
writer is not closed). -/
theorem writeLoop_read_error (env : Env) (e : String)
    (rest : List (Except String RecordBatch)) (tr : Trace) :
    writeLoop env (Except.error e :: rest) tr = ⟨.error (ParquetError.fromArrow e), tr⟩ := by
  simp [writeLoop]

/-- A write failure aborts the loop with the writer's error passed through
unchanged; the writer is not closed. -/
theorem writeLoop_write_error (env : Env) (b : RecordBatch)
    (rest : List (Except String RecordBatch)) (tr : Trace) (pe : ParquetError)
    (h : env.writeBatch b = .error pe) :
    writeLoop env (Except.ok b :: rest) tr = ⟨.error pe, tr⟩ := by
  simp [writeLoop, h]

/-- When the stream is drained, the writer is closed and a close failure is
passed through unchanged. -/
theorem writeLoop_nil_close_error (env : Env) (tr : Trace) (pe : ParquetError)
    (h : env.closeWriter = .error pe) :
    writeLoop env [] tr = ⟨.error pe, { tr with closed := true }⟩ := by
  simp [writeLoop, h]

/-- A schema-resolution failure is returned as is by `convert`. -/
theorem convert_schema_error (opts : Opts) (env : Env) (e : ParquetError)
    (hopen : env.inputOpen = .ok ())
    (hres : (resolveSchema opts env).1 = .error e) :
    (convert opts env).result = .error e := by
  unfold convert
  rw [hopen]
  simp [hres]

theorem writeLoop_stderr (env : Env) (l : List (Except String RecordBatch)) (tr : Trace) :
    (writeLoop env l tr).trace.stderrLines = tr.stderrLines :=
  (writeLoop_trace_fields env l tr).1

theorem writeLoop_stdout (env : Env) (l : List (Except String RecordBatch)) (tr : Trace) :
    (writeLoop env l tr).trace.stdoutLines = tr.stdoutLines :=
  (writeLoop_trace_fields env l tr).2.1

theorem writeLoop_inferCalled (env : Env) (l : List (Except String RecordBatch)) (tr : Trace) :
    (writeLoop env l tr).trace.inferCalled = tr.inferCalled :=
  (writeLoop_trace_fields env l tr).2.2.1

theorem writeLoop_readerCfg (env : Env) (l : List (Except String RecordBatch)) (tr : Trace) :
    (writeLoop env l tr).trace.readerCfg = tr.readerCfg :=
  (writeLoop_trace_fields env l tr).2.2.2.1

theorem writeLoop_outputCreated (env : Env) (l : List (Except String RecordBatch)) (tr : Trace) :
    (writeLoop env l tr).trace.outputCreated = tr.outputCreated :=
  (writeLoop_trace_fields env l tr).2.2.2.2.1

theorem writeLoop_writerCfg (env : Env) (l : List (Except String RecordBatch)) (tr : Trace) :
    (writeLoop env l tr).trace.writerCfg = tr.writerCfg :=
  (writeLoop_trace_fields env l tr).2.2.2.2.2

/-- After a successful input open, the trace records exactly the inference
invocation that schema resolution performed. -/
theorem convert_inferCalled (opts : Opts) (env : Env)
    (hopen : env.inputOpen = .ok ()) :
    (convert opts env).trace.inferCalled = (resolveSchema opts env).2 := by
  unfold convert
  rw [hopen]
  rcases hres : (resolveSchema opts env).1 with e | s <;> simp only []
  · simp [hres, Trace.empty]
  · rw [hres]
    by_cases hdry : opts.dry <;> by_cases hps : opts.print_schema <;>
      simp only [hdry, hps, if_true, if_false, Bool.or_self, Bool.or_false, Bool.false_or,
        Bool.true_or, if_pos, if_neg] <;>
    first
    | rfl
    | (cases hrb : env.readerBuild <;> simp only [hrb] <;>
       first
       | rfl
       | (cases hoc : env.outputCreate <;> simp only [hoc] <;>
          first
          | rfl
          | (cases hwn : env.writerNew <;> simp only [hwn] <;>
             first
             | rfl
             | exact (writeLoop_trace_fields env env.batches _).2.2.1)))

/-- Once the input is open and the schema resolved, the stream output, the
reader configuration and the writer configuration of the run are fixed:
the schema report goes out exactly when `print_schema` or `dry` is set, the
reader (when not in dry mode) is configured with the resolved schema, the
defaulted header flag and the delimiter byte, and the writer, whenever it
is constructed, is given the resolved schema and `makeWriterProps opts`. -/
theorem convert_trace_base (opts : Opts) (env : Env) (s : Schema)
    (hopen : env.inputOpen = .ok ())
    (hschema : (resolveSchema opts env).1 = .ok s) :
    (convert opts env).trace.stderrLines
        = (if opts.print_schema || opts.dry then ["Schema:"] else []) ∧
    (convert opts env).trace.stdoutLines
        = (if opts.print_schema || opts.dry then [schemaJson s] else []) ∧
    (convert opts env).trace.readerCfg
        = (if opts.dry then none
            else some ⟨s, opts.header.getD true, charAsU8 opts.delimiter⟩) ∧
    (∀ w, (convert opts env).trace.writerCfg = some w → w = (s, makeWriterProps opts)) := by
  unfold convert
  rw [hopen]
  simp only [hschema]
  by_cases hdry : opts.dry <;> by_cases hps : opts.print_schema <;>
    simp only [hdry, hps, Bool.or_true, Bool.or_false, Bool.true_or, Bool.false_or,
      if_true, if_false] <;>
  cases hrb : env.readerBuild <;> cases hoc : env.outputCreate <;>
    cases hwn : env.writerNew <;>
  simp [hrb, hoc, hwn, Trace.empty, writeLoop_stderr, writeLoop_stdout,
    writeLoop_readerCfg, writeLoop_writerCfg]

/-- When every phase up to the writer construction succeeds and dry mode is
off, `convert` is the write loop started on the reader's batches from the
trace accumulated so far. -/
theorem convert_main_path (opts : Opts) (env : Env) (s : Schema)
    (hdry : opts.dry = false)
    (hopen : env.inputOpen = .ok ())
    (hschema : (resolveSchema opts env).1 = .ok s)
    (hrb : env.readerBuild = .ok ())
    (hoc : env.outputCreate = .ok ())
    (hwn : env.writerNew = .ok ()) :
    convert opts env = writeLoop env env.batches
      { stderrLines := if opts.print_schema then ["Schema:"] else []
        stdoutLines := if opts.print_schema then [schemaJson s] else []
        inferCalled := (resolveSchema opts env).2
        readerCfg := some ⟨s, opts.header.getD true, charAsU8 opts.delimiter⟩
        outputCreated := true
        writerCfg := some (s, makeWriterProps opts)
        written := []
        closed := false } := by
  unfold convert
  rw [hopen]
  simp only [hschema, hdry, hrb, hoc, hwn]
  by_cases hps : opts.print_schema <;>
    simp [hps, Trace.empty]

/-! ### Claim theorems -/

/-- C1: when `schema_file` is present, `convert` never performs schema
inference, and the schema used for the record-batch reader and for the
columnar writer is exactly the one deserialized from the schema file —
whatever inference over the input would have produced. -/
theorem schema_file_suppresses_inference (opts : Opts) (env : Env) (p : String) (s : Schema)
    (hfile : opts.schema_file = some p)
    (hopen : env.inputOpen = .ok ())
    (hsopen : env.schemaFileOpen = .ok ())
    (hparse : env.schemaParse = .ok s) :
    (convert opts env).trace.inferCalled = none ∧
    (∀ rc, (convert opts env).trace.readerCfg = some rc → rc.schema = s) ∧
    (∀ w, (convert opts env).trace.writerCfg = some w → w.1 = s) := by
  have hres1 : (resolveSchema opts env).1 = .ok s := by
    simp [resolveSchema, hfile, hsopen, hparse]
  have hres2 : (resolveSchema opts env).2 = none := by
    simp [resolveSchema, hfile]
  obtain ⟨-, -, hrc, hwc⟩ := convert_trace_base opts env s hopen hres1
  refine ⟨?_, ?_, ?_⟩
  · rw [convert_inferCalled opts env hopen, hres2]
  · intro rc h
    rw [hrc] at h
    by_cases hdry : opts.dry <;> simp [hdry] at h
    subst h
    rfl
  · intro w h
    rw [hwc w h]

theorem schema_file_suppresses_inference_witness :
    (convert exOptsSchemaFile exEnvSchemaFile).trace.inferCalled = none ∧
    ({ schema := exSchema, header := true, delimiter := 44 : ReaderCfg }).schema = exSchema := by
  have h := schema_file_suppresses_inference exOptsSchemaFile exEnvSchemaFile
    "schema.json" exSchema rfl rfl rfl rfl
  exact ⟨h.1, h.2.1 ⟨exSchema, true, 44⟩ (by decide)⟩

/-- C2: with `dry` set, `convert` never creates the output file, never
configures the batch reader or the columnar writer, writes no batch and
never closes a writer; and whenever the input opens and the schema
resolves, it returns success with the schema report as its only stream
output. -/
theorem dry_skips_read_write (opts : Opts) (env : Env)
    (hdry : opts.dry = true) :
    (convert opts env).trace.outputCreated = false ∧
    (convert opts env).trace.readerCfg = none ∧
    (convert opts env).trace.writerCfg = none ∧
    (convert opts env).trace.written = [] ∧
    (convert opts env).trace.closed = false ∧
    (∀ s, env.inputOpen = .ok () → (resolveSchema opts env).1 = .ok s →
      (convert opts env).result = .ok () ∧
      (convert opts env).trace.stderrLines = ["Schema:"] ∧
      (convert opts env).trace.stdoutLines = [schemaJson s]) := by
  unfold convert
  cases hopen : env.inputOpen with
  | error e => simp [hopen, Trace.empty]
  | ok u =>
    cases u
    rcases hres : (resolveSchema opts env).1 with e | s <;>
      simp [hres, hdry, Trace.empty]

theorem dry_skips_read_write_witness :
    (convert exOptsDry exEnvOk).trace.outputCreated = false ∧
    (convert exOptsDry exEnvOk).trace.readerCfg = none ∧
    (convert exOptsDry exEnvOk).trace.writerCfg = none ∧
    (convert exOptsDry exEnvOk).trace.written = [] ∧
    (convert exOptsDry exEnvOk).trace.closed = false ∧
    (convert exOptsDry exEnvOk).result = .ok () ∧
    (convert exOptsDry exEnvOk).trace.stderrLines = ["Schema:"] ∧
    (convert exOptsDry exEnvOk).trace.stdoutLines = [schemaJson exSchema] := by
  have h := dry_skips_read_write exOptsDry exEnvOk rfl
  have h6 := h.2.2.2.2.2 exSchema rfl rfl
  exact ⟨h.1, h.2.1, h.2.2.1, h.2.2.2.1, h.2.2.2.2.1, h6.1, h6.2.1, h6.2.2⟩

/-- C3: when the input path cannot be opened, `convert` fails with the
converted io error and the output file has not been created — opening the
input strictly precedes creating the output. -/
theorem input_open_error_no_output (opts : Opts) (env : Env) (e : IoError)
    (hopen : env.inputOpen = .error e) :
    (convert opts env).result = .error (ParquetError.fromIo e) ∧
    (convert opts env).trace.outputCreated = false := by
  unfold convert
  simp [hopen, Trace.empty]

theorem input_open_error_no_output_witness :
    (convert exOpts exEnvInputErr).result = .error (ParquetError.external "no such file") ∧
    (convert exOpts exEnvInputErr).trace.outputCreated = false := by
  have h := input_open_error_no_output exOpts exEnvInputErr ⟨"no such file"⟩ rfl
  exact ⟨h.1, h.2⟩

/-- C4: a read error from the record-batch reader aborts `convert` with
that first error (converted into the parquet error type); exactly the
batches before the failure were written and the writer is never closed on
this early return. -/
theorem batch_read_error_aborts (opts : Opts) (env : Env) (s : Schema)
    (pre : List RecordBatch) (e : String) (rest : List (Except String RecordBatch))
    (hdry : opts.dry = false)
    (hopen : env.inputOpen = .ok ())
    (hschema : (resolveSchema opts env).1 = .ok s)
    (hrb : env.readerBuild = .ok ())
    (hoc : env.outputCreate = .ok ())
    (hwn : env.writerNew = .ok ())
    (hb : env.batches = pre.map Except.ok ++ Except.error e :: rest)
    (hw : ∀ b ∈ pre, env.writeBatch b = .ok ()) :
    (convert opts env).result = .error (ParquetError.fromArrow e) ∧
    (convert opts env).trace.written = pre ∧
    (convert opts env).trace.closed = false := by
  rw [convert_main_path opts env s hdry hopen hschema hrb hoc hwn, hb,
    writeLoop_append_ok env pre _ _ hw, writeLoop_read_error]
  simp

theorem batch_read_error_aborts_witness :
    (convert exOpts exEnvBatchErr).result = .error (ParquetError.arrowError "bad row") ∧
    (convert exOpts exEnvBatchErr).trace.written = [⟨0⟩] ∧
    (convert exOpts exEnvBatchErr).trace.closed = false := by
  have h := batch_read_error_aborts exOpts exEnvBatchErr exSchema [⟨0⟩] "bad row" []
    rfl rfl rfl rfl rfl rfl rfl (fun b _ => rfl)
  exact ⟨h.1, h.2.1, h.2.2⟩

/-- C5: with `max_read_records` set to 0 and no explicit schema, inference
samples no records, so every column of the inferred schema has string type
and no column gets a boolean, integer or float type. -/
theorem max_read_records_zero_all_string (rows : List (List String)) (header : Bool) :
    ((inferSchemaFromRows rows header (some 0)).all
        fun f => f.dataType == DataType.utf8) = true ∧
    ((inferSchemaFromRows rows header (some 0)).all
        fun f => !(f.dataType == DataType.boolean || f.dataType == DataType.int64
          || f.dataType == DataType.float64)) = true := by
  have key : ∀ f ∈ inferSchemaFromRows rows header (some 0), f.dataType = DataType.utf8 := by
    intro f hf
    unfold inferSchemaFromRows at hf
    simp only [List.take_zero, List.filterMap_nil, List.mem_map, List.mem_range] at hf
    obtain ⟨i, -, rfl⟩ := hf
    rfl
  refine ⟨?_, ?_⟩ <;> (rw [List.all_eq_true]; intro f hf; simp [key f hf])

/-- C6: the writer properties handed to the columnar writer are assembled
monotonically from the library's builder defaults — each optional
configuration field overrides its property when present and leaves the
library default untouched when absent; and those properties are exactly
what `convert` gives the writer. -/
theorem writer_props_override_or_default (opts : Opts) :
    (makeWriterProps opts).dictionaryEnabled = opts.dictionary ∧
    (makeWriterProps opts).statisticsEnabled
      = (match opts.statistics with
          | some s => enabledStatisticsOf s
          | none => WriterPropertiesBuilder.default.statisticsEnabled) ∧
    (makeWriterProps opts).compression
      = (match opts.compression with
          | some c => compressionOf c
          | none => WriterPropertiesBuilder.default.compression) ∧
    (makeWriterProps opts).encoding
      = (match opts.encoding with
          | some e => some (encodingOf e)
          | none => WriterPropertiesBuilder.default.encoding) ∧
    (makeWriterProps opts).writeBatchSize
      = (match opts.write_batch_size with
          | some n => n
          | none => WriterPropertiesBuilder.default.writeBatchSize) ∧
    (makeWriterProps opts).dataPageSizeLimit
      = (match opts.data_page_size_limit with
          | some n => n
          | none => WriterPropertiesBuilder.default.dataPageSizeLimit) ∧
    (makeWriterProps opts).dictionaryPageSizeLimit
      = (match opts.dictionary_page_size_limit with
          | some n => n
          | none => WriterPropertiesBuilder.default.dictionaryPageSizeLimit) ∧
    (makeWriterProps opts).maxRowGroupSize
      = (match opts.max_row_group_size with
          | some n => n
          | none => WriterPropertiesBuilder.default.maxRowGroupSize) ∧
    (makeWriterProps opts).createdBy
      = (match opts.created_by with
          | some c => c
          | none => WriterPropertiesBuilder.default.createdBy) ∧
    (makeWriterProps opts).maxStatisticsSize
      = (match opts.max_statistics_size with
          | some n => n
          | none => WriterPropertiesBuilder.default.maxStatisticsSize) ∧
    (∀ (env : Env) (s : Schema) (w : Schema × WriterPropertiesBuilder),
      env.inputOpen = .ok () → (resolveSchema opts env).1 = .ok s →
      (convert opts env).trace.writerCfg = some w → w.2 = makeWriterProps opts) := by
  have hB : ∀ (env : Env) (s : Schema) (w : Schema × WriterPropertiesBuilder),
      env.inputOpen = .ok () → (resolveSchema opts env).1 = .ok s →
      (convert opts env).trace.writerCfg = some w → w.2 = makeWriterProps opts := by
    intro env s w hopen hres hw
    obtain ⟨-, -, -, hwc⟩ := convert_trace_base opts env s hopen hres
    rw [hwc w hw]
  obtain ⟨i, o, sf, mrr, hd, dl, cmp, enc, dpsl, dicpsl, wbs, mrgs, cb, dict, st, mss, ps, dry⟩ := opts
  cases st <;> cases cmp <;> cases enc <;> cases wbs <;> cases dpsl <;>
    cases dicpsl <;> cases mrgs <;> cases cb <;> cases mss <;>
    exact ⟨rfl, rfl, rfl, rfl, rfl, rfl, rfl, rfl, rfl, rfl, hB⟩

theorem writer_props_override_or_default_witness :
    (makeWriterProps exOpts).statisticsEnabled
      = WriterPropertiesBuilder.default.statisticsEnabled ∧
    ((exSchema, makeWriterProps exOpts) : Schema × WriterPropertiesBuilder).2
      = makeWriterProps exOpts := by
  have h := writer_props_override_or_default exOpts
  refine ⟨h.2.1, ?_⟩
  exact h.2.2.2.2.2.2.2.2.2.2 exEnvOk exSchema (exSchema, makeWriterProps exOpts)
    rfl rfl (by decide)

/-- C7 (counterexample): with `print_schema` set, the error stream receives
only the line `Schema:`; the pretty-printed schema JSON goes only to
standard output, so no copy of the JSON is written to the error stream. -/
theorem print_schema_json_only_stdout :
    (convert exOptsPrint exEnvOk).trace.stderrLines = ["Schema:"] ∧
    (convert exOptsPrint exEnvOk).trace.stdoutLines = [schemaJson exSchema] ∧
    ((convert exOptsPrint exEnvOk).trace.stderrLines.contains (schemaJson exSchema)) = false := by
  exact ⟨rfl, rfl, by decide⟩

/-- C7 (amended): when `print_schema` or `dry` is set and the schema
resolves, the header line `Schema:` is written to the error stream and one
copy of the pretty-printed schema JSON is written to standard output. -/
theorem schema_report_streams (opts : Opts) (env : Env) (s : Schema)
    (hps : opts.print_schema = true ∨ opts.dry = true)
    (hopen : env.inputOpen = .ok ())
    (hschema : (resolveSchema opts env).1 = .ok s) :
    (convert opts env).trace.stderrLines = ["Schema:"] ∧
    (convert opts env).trace.stdoutLines = [schemaJson s] := by
  obtain ⟨h1, h2, -, -⟩ := convert_trace_base opts env s hopen hschema
  have hcond : (opts.print_schema || opts.dry) = true := by
    rcases hps with h | h <;> simp [h]
  rw [h1, h2, hcond]
  exact ⟨if_pos rfl, if_pos rfl⟩

theorem schema_report_streams_witness :
    (convert exOptsPrint exEnvOk).trace.stderrLines = ["Schema:"] ∧
    (convert exOptsPrint exEnvOk).trace.stdoutLines = [schemaJson exSchema] :=
  schema_report_streams exOptsPrint exEnvOk exSchema (Or.inl rfl) rfl rfl

/-- C9: setting the dictionary page size limit is idempotent — applying the
setter twice with the same value equals applying it once — so the source's
duplicated assignment leaves the assembled writer properties identical to
the single-assignment assembly. -/
theorem dictionary_page_size_limit_idempotent :
    (∀ (b : WriterPropertiesBuilder) (v : Nat),
      (b.set_dictionary_page_size_limit v).set_dictionary_page_size_limit v
        = b.set_dictionary_page_size_limit v) ∧
    (∀ opts : Opts, makeWriterProps opts = makeWriterPropsSingle opts) := by
  refine ⟨fun b v => rfl, fun opts => ?_⟩
  unfold makeWriterProps makeWriterPropsSingle
  cases hd : opts.dictionary_page_size_limit <;> rfl

/-- C10: with the header flag absent, both schema inference and the
record-batch reader use a header value of `true` and the same delimiter
byte. -/
theorem header_default_and_consistency (opts : Opts) (env : Env) (s : Schema)
    (hsf : opts.schema_file = none)
    (hh : opts.header = none)
    (hdry : opts.dry = false)
    (hopen : env.inputOpen = .ok ())
    (hschema : (resolveSchema opts env).1 = .ok s) :
    (convert opts env).trace.inferCalled
      = some ((FormatCfg.default.with_delimiter (charAsU8 opts.delimiter)).with_header true,
          opts.max_read_records) ∧
    (convert opts env).trace.readerCfg = some ⟨s, true, charAsU8 opts.delimiter⟩ ∧
    ((FormatCfg.default.with_delimiter (charAsU8 opts.delimiter)).with_header true).header
      = true ∧
    ((FormatCfg.default.with_delimiter (charAsU8 opts.delimiter)).with_header true).delimiter
      = charAsU8 opts.delimiter := by
  obtain ⟨-, -, hrc, -⟩ := convert_trace_base opts env s hopen hschema
  refine ⟨?_, ?_, rfl, rfl⟩
  · rw [convert_inferCalled opts env hopen]
    simp [resolveSchema, hsf, hh]
  · rw [hrc]
    simp [hdry, hh]

theorem header_default_and_consistency_witness :
    (convert exOpts exEnvOk).trace.inferCalled
      = some ((FormatCfg.default.with_delimiter (charAsU8 exOpts.delimiter)).with_header true,
          exOpts.max_read_records) ∧
    (convert exOpts exEnvOk).trace.readerCfg
      = some ⟨exSchema, true, charAsU8 exOpts.delimiter⟩ := by
  have h := header_default_and_consistency exOpts exEnvOk exSchema rfl rfl rfl rfl rfl
  exact ⟨h.1, h.2.1⟩

/-- C8 (counterexample): a record-batch read failure is surfaced through the
output library's `From` conversion as its arrow-error variant, not as a
general conversion error. -/
theorem batch_read_error_not_general :
    (convert exOpts exEnvBatchErrLone).result = .error (ParquetError.arrowError "boom") ∧
    resultIsGeneral (convert exOpts exEnvBatchErrLone) = false := by
  exact ⟨rfl, rfl⟩

/-- C8 (amended): schema-file open failures, schema-parse failures and
inference failures are wrapped as general conversion errors carrying a
human-readable message; an input-open failure is converted through the
output library's conversion for io errors, a batch-read failure through its
conversion for arrow errors (the message preserved), and write and finalize
failures pass through the output library's native error type unchanged. -/
theorem error_source_variants (opts : Opts) (env : Env) :
    (∀ e, env.inputOpen = .error e →
      (convert opts env).result = .error (ParquetError.external e.msg)) ∧
    (∀ p e, env.inputOpen = .ok () → opts.schema_file = some p →
      env.schemaFileOpen = .error e →
      (convert opts env).result = .error (.general
        ("Error opening schema file: " ++ pathDebug p ++ ", message: " ++ e.msg))) ∧
    (∀ p err, env.inputOpen = .ok () → opts.schema_file = some p →
      env.schemaFileOpen = .ok () → env.schemaParse = .error err →
      (convert opts env).result = .error (.general ("Error reading schema json: " ++ err))) ∧
    (∀ err, env.inputOpen = .ok () → opts.schema_file = none →
      env.infer ((FormatCfg.default.with_delimiter (charAsU8 opts.delimiter)).with_header
        (opts.header.getD true)) opts.max_read_records = .error err →
      (convert opts env).result = .error (.general ("Error inferring schema: " ++ err))) ∧
    (∀ (s : Schema) (pre : List RecordBatch) (e : String)
        (rest : List (Except String RecordBatch)),
      opts.dry = false → env.inputOpen = .ok () →
      (resolveSchema opts env).1 = .ok s → env.readerBuild = .ok () →
      env.outputCreate = .ok () → env.writerNew = .ok () →
      env.batches = pre.map Except.ok ++ Except.error e :: rest →
      (∀ x ∈ pre, env.writeBatch x = .ok ()) →
      (convert opts env).result = .error (ParquetError.arrowError e)) ∧
    (∀ (s : Schema) (pre : List RecordBatch) (b : RecordBatch)
        (rest : List (Except String RecordBatch)) (pe : ParquetError),
      opts.dry = false → env.inputOpen = .ok () →
      (resolveSchema opts env).1 = .ok s → env.readerBuild = .ok () →
      env.outputCreate = .ok () → env.writerNew = .ok () →
      env.batches = pre.map Except.ok ++ Except.ok b :: rest →
      (∀ x ∈ pre, env.writeBatch x = .ok ()) → env.writeBatch b = .error pe →
      (convert opts env).result = .error pe) ∧
    (∀ (s : Schema) (l : List RecordBatch) (pe : ParquetError),
      opts.dry = false → env.inputOpen = .ok () →
      (resolveSchema opts env).1 = .ok s → env.readerBuild = .ok () →
      env.outputCreate = .ok () → env.writerNew = .ok () →
      env.batches = l.map Except.ok → (∀ x ∈ l, env.writeBatch x = .ok ()) →
      env.closeWriter = .error pe →
      (convert opts env).result = .error pe) := by
  refine ⟨?_, ?_, ?_, ?_, ?_, ?_, ?_⟩
  · intro e h
    unfold convert
    simp [h, ParquetError.fromIo]
  · intro p e hopen hp hso
    have hres : (resolveSchema opts env).1 = .error (.general
        ("Error opening schema file: " ++ pathDebug p ++ ", message: " ++ e.msg)) := by
      simp [resolveSchema, hp, hso]
    exact convert_schema_error opts env _ hopen hres
  · intro p err hopen hp hso hparse
    have hres : (resolveSchema opts env).1
        = .error (.general ("Error reading schema json: " ++ err)) := by
      simp [resolveSchema, hp, hso, hparse]
    exact convert_schema_error opts env _ hopen hres
  · intro err hopen hp hinf
    have hres : (resolveSchema opts env).1
        = .error (.general ("Error inferring schema: " ++ err)) := by
      simp [resolveSchema, hp, hinf]
    exact convert_schema_error opts env _ hopen hres
  · intro s pre e rest hdry hopen hres hrb hoc hwn hb hw
    rw [convert_main_path opts env s hdry hopen hres hrb hoc hwn, hb,
      writeLoop_append_ok env pre _ _ hw, writeLoop_read_error]
    rfl
  · intro s pre b rest pe hdry hopen hres hrb hoc hwn hb hw hwe
    rw [convert_main_path opts env s hdry hopen hres hrb hoc hwn, hb,
      writeLoop_append_ok env pre _ _ hw, writeLoop_write_error env b rest _ pe hwe]
  · intro s l pe hdry hopen hres hrb hoc hwn hb hw hc
    rw [convert_main_path opts env s hdry hopen hres hrb hoc hwn, hb]
    rw [show l.map Except.ok = l.map Except.ok ++ ([] : List (Except String RecordBatch))
      from (List.append_nil _).symm]
    rw [writeLoop_append_ok env l _ _ hw, writeLoop_nil_close_error env _ pe hc]

theorem error_source_variants_witness :
    (convert exOpts exEnvInputErr).result = .error (ParquetError.external "no such file") ∧
    (convert exOptsSchemaFile exEnvSchemaOpenErr).result = .error (.general
      "Error opening schema file: \"schema.json\", message: denied") ∧
    (convert exOptsSchemaFile exEnvParseErr).result = .error (.general
      "Error reading schema json: bad json") ∧
    (convert exOpts exEnvInferErr).result = .error (.general
      "Error inferring schema: bad csv") ∧
    (convert exOpts exEnvBatchErr).result = .error (ParquetError.arrowError "bad row") ∧
    (convert exOpts exEnvWriteErr).result = .error (.external "disk full") ∧
    (convert exOpts exEnvCloseErr).result = .error (.external "disk full") := by
  refine ⟨?_, ?_, ?_, ?_, ?_, ?_, ?_⟩
  · exact (error_source_variants exOpts exEnvInputErr).1 ⟨"no such file"⟩ rfl
  · exact (error_source_variants exOptsSchemaFile exEnvSchemaOpenErr).2.1
      "schema.json" ⟨"denied"⟩ rfl rfl rfl
  · exact (error_source_variants exOptsSchemaFile exEnvParseErr).2.2.1
      "schema.json" "bad json" rfl rfl rfl rfl
  · exact (error_source_variants exOpts exEnvInferErr).2.2.2.1 "bad csv" rfl rfl rfl
  · exact (error_source_variants exOpts exEnvBatchErr).2.2.2.2.1 exSchema [⟨0⟩]
      "bad row" [] rfl rfl rfl rfl rfl rfl rfl (fun x _ => rfl)
  · exact (error_source_variants exOpts exEnvWriteErr).2.2.2.2.2.1 exSchema []
      ⟨1⟩ [] (.external "disk full") rfl rfl rfl rfl rfl rfl rfl
      (fun x hx => absurd hx (List.not_mem_nil x)) rfl
  · exact (error_source_variants exOpts exEnvCloseErr).2.2.2.2.2.2 exSchema [⟨2⟩]
      (.external "disk full") rfl rfl rfl rfl rfl rfl rfl (fun x _ => rfl) rfl

end Csv2Parquet
